import Mathlib

/-!
Verification of the bb-service HTTP client (`bb-service-rs/src/lib.rs`).

The client exposes three remote operations (`generate_proof`, `verify_proof`,
`health_check`) on `BbServiceClient` plus a local loader
(`load_circuit_definition`).  The network transport is modelled as an oracle:
each operation is embedded as a function of the transport outcome (either a
transport failure or an HTTP response carrying a status code and a body).  A
body is `Option Json`: `none` stands for bytes that do not parse as JSON at
all.  The serde-derived decoders for the response structs are embedded
faithfully: they require an object, visit the members in order, fail on a
duplicate known field, ignore unknown fields, and fail when a required field
is missing at the end (serde's default behaviour for a derived struct).
-/

namespace BbService

/-- A JSON value, as in `serde_json::Value`: `null`, booleans, numbers,
strings, arrays and objects.  Numbers are restricted to integers, which is
all the wire protocol uses (byte sequences are arrays of integers in
`0..=255`); objects are member lists in wire order. -/
inductive Json where
  | null
  | bool (b : Bool)
  | num (n : Int)
  | str (s : String)
  | arr (elems : List Json)
  | obj (members : List (String × Json))

/-- `serde_json::Value::is_object`. -/
def Json.isObject : Json → Bool
  | .obj _ => true
  | _ => false

/-- `serde_json::Value::as_object` (returns `None` off objects). -/
def Json.asObject : Json → Option (List (String × Json))
  | .obj ms => some ms
  | _ => none

/-- `Map::contains_key` on a JSON object's member list. -/
def containsKey (ms : List (String × Json)) (k : String) : Bool :=
  ms.any (fun kv => kv.1 = k)

/-- The top-level keys of a JSON object, in order (`[]` off objects). -/
def Json.objKeys : Json → List String
  | .obj ms => ms.map Prod.fst
  | _ => []

/-- `ProofData`: a pair of byte sequences.  The in-memory field is
`public_inputs`; on the wire it is renamed to `publicInputs`. -/
structure ProofData where
  proof : List Nat
  public_inputs : List Nat

/-- Decoding a single `u8` from JSON: an integer number in `0..=255`. -/
def decodeU8 : Json → Option Nat
  | .num n => if 0 ≤ n ∧ n ≤ 255 then some n.toNat else none
  | _ => none

/-- Decoding `Vec<u8>` from JSON: an array of `u8`s. -/
def decodeBytes : Json → Option (List Nat)
  | .arr es => es.mapM decodeU8
  | _ => none

/-- Decoding `String` from JSON: a JSON string. -/
def decodeString : Json → Option String
  | .str s => some s
  | _ => none

/-- Decoding `bool` from JSON: a JSON boolean. -/
def decodeBool : Json → Option Bool
  | .bool b => some b
  | _ => none

/-- Decoding `Option<String>` from JSON: `null` gives `none`, a string gives
`some`, anything else is a type error. -/
def decodeOptString : Json → Option (Option String)
  | .null => some none
  | .str s => some (some s)
  | _ => none

/-- Member loop of the derived deserializer for
`ProofData { proof: Vec<u8>, #[serde(rename = "publicInputs")] public_inputs: Vec<u8> }`:
known fields must appear exactly once with the right type, unknown fields are
skipped, and both fields must be present at the end. -/
def decodeProofDataFields :
    List (String × Json) → Option (List Nat) → Option (List Nat) →
    Option ProofData
  | [], some pr, some pi => some ⟨pr, pi⟩
  | [], _, _ => none
  | (k, v) :: rest, pr, pi =>
    if k = "proof" then
      match pr with
      | some _ => none
      | none =>
        match decodeBytes v with
        | some bs => decodeProofDataFields rest (some bs) pi
        | none => none
    else if k = "publicInputs" then
      match pi with
      | some _ => none
      | none =>
        match decodeBytes v with
        | some bs => decodeProofDataFields rest pr (some bs)
        | none => none
    else decodeProofDataFields rest pr pi

/-- Decoding `ProofData` from JSON: requires an object. -/
def decodeProofData : Json → Option ProofData
  | .obj ms => decodeProofDataFields ms none none
  | _ => none

/-- Member loop of the derived deserializer for
`ProveResponse { message: String, proof: ProofData }`. -/
def decodeProveFields :
    List (String × Json) → Option String → Option ProofData →
    Option (String × ProofData)
  | [], some m, some p => some (m, p)
  | [], _, _ => none
  | (k, v) :: rest, m, p =>
    if k = "message" then
      match m with
      | some _ => none
      | none =>
        match decodeString v with
        | some s => decodeProveFields rest (some s) p
        | none => none
    else if k = "proof" then
      match p with
      | some _ => none
      | none =>
        match decodeProofData v with
        | some pd => decodeProveFields rest m (some pd)
        | none => none
    else decodeProveFields rest m p

/-- Decoding `ProveResponse` from JSON. -/
def decodeProveResponse : Json → Option (String × ProofData)
  | .obj ms => decodeProveFields ms none none
  | _ => none

/-- Member loop of the derived deserializer for
`VerifyResponse { message: String, #[serde(rename = "isValid")] is_valid: bool }`. -/
def decodeVerifyFields :
    List (String × Json) → Option String → Option Bool →
    Option (String × Bool)
  | [], some m, some v => some (m, v)
  | [], _, _ => none
  | (k, v) :: rest, m, iv =>
    if k = "message" then
      match m with
      | some _ => none
      | none =>
        match decodeString v with
        | some s => decodeVerifyFields rest (some s) iv
        | none => none
    else if k = "isValid" then
      match iv with
      | some _ => none
      | none =>
        match decodeBool v with
        | some b => decodeVerifyFields rest m (some b)
        | none => none
    else decodeVerifyFields rest m iv

/-- Decoding `VerifyResponse` from JSON. -/
def decodeVerifyResponse : Json → Option (String × Bool)
  | .obj ms => decodeVerifyFields ms none none
  | _ => none

/-- Member loop of the derived deserializer for
`ErrorResponse { error: String, details: Option<String> }`.  A missing
`Option<String>` field defaults to `None`. -/
def decodeErrorFields :
    List (String × Json) → Option String → Option (Option String) →
    Option (String × Option String)
  | [], some e, some d => some (e, d)
  | [], some e, none => some (e, none)
  | [], none, _ => none
  | (k, v) :: rest, e, d =>
    if k = "error" then
      match e with
      | some _ => none
      | none =>
        match decodeString v with
        | some s => decodeErrorFields rest (some s) d
        | none => none
    else if k = "details" then
      match d with
      | some _ => none
      | none =>
        match decodeOptString v with
        | some o => decodeErrorFields rest e (some o)
        | none => none
    else decodeErrorFields rest e d

/-- Decoding `ErrorResponse` from JSON. -/
def decodeErrorResponse : Json → Option (String × Option String)
  | .obj ms => decodeErrorFields ms none none
  | _ => none

/-- `reqwest::Error`, abstracted: either a transport failure (connection,
DNS, TLS, timeout, with its cause) or a response-body decode failure. -/
inductive ReqwestErr where
  | transport (cause : String)
  | decode

/-- `BbServiceError`: the client's closed error taxonomy. -/
inductive BbServiceError where
  | Request (e : ReqwestErr)
  | Service (msg : String)
  | InvalidResponse

/-- An HTTP response: a status code and a body.  The body is the result of
attempting to parse the raw bytes as JSON; `none` means the bytes are not
JSON at all. -/
structure HttpResponse where
  status : Nat
  body : Option Json

/-- `reqwest::StatusCode::is_success`: the 2xx range. -/
def isSuccess (status : Nat) : Bool :=
  200 ≤ status && status < 300

/-- Serializing `ProofData` (derived `Serialize` with the
`publicInputs` rename): fields in declaration order. -/
def serializeProofData (p : ProofData) : Json :=
  .obj [("proof", .arr (p.proof.map fun b => .num (Int.ofNat b))),
        ("publicInputs", .arr (p.public_inputs.map fun b => .num (Int.ofNat b)))]

/-- Serializing `ProveRequest { circuit, input }` (derived `Serialize`). -/
def serializeProveRequest (circuit : Json) (input : List (String × Json)) : Json :=
  .obj [("circuit", circuit), ("input", .obj input)]

/-- Serializing `VerifyRequest { circuit, proof }` (derived `Serialize`). -/
def serializeVerifyRequest (circuit : Json) (proof : ProofData) : Json :=
  .obj [("circuit", circuit), ("proof", serializeProofData proof)]

/-- The status-driven branch of `BbServiceClient::generate_proof` once a
response has arrived: on 2xx decode a `ProveResponse` and return its `proof`
field, a decode failure surfacing as `Request`; otherwise decode an
`ErrorResponse`, a decode failure surfacing as `InvalidResponse` and success
as `Service("{error}: {details-or-empty}")`. -/
def generate_proof_response (resp : HttpResponse) :
    Except BbServiceError ProofData :=
  if isSuccess resp.status then
    match resp.body with
    | some j =>
      match decodeProveResponse j with
      | some pr => .ok pr.2
      | none => .error (.Request .decode)
    | none => .error (.Request .decode)
  else
    match resp.body with
    | some j =>
      match decodeErrorResponse j with
      | some er => .error (.Service (er.1 ++ ": " ++ er.2.getD ""))
      | none => .error .InvalidResponse
    | none => .error .InvalidResponse

/-- `BbServiceClient::generate_proof`, as a function of the transport
outcome: a transport failure propagates as `Request` via `?`. -/
def generate_proof (outcome : Except String HttpResponse) :
    Except BbServiceError ProofData :=
  match outcome with
  | .error cause => .error (.Request (.transport cause))
  | .ok resp => generate_proof_response resp

/-- The status-driven branch of `BbServiceClient::verify_proof`: on 2xx
decode a `VerifyResponse` and return its `isValid` field; the error branch
is the same as `generate_proof`'s. -/
def verify_proof_response (resp : HttpResponse) :
    Except BbServiceError Bool :=
  if isSuccess resp.status then
    match resp.body with
    | some j =>
      match decodeVerifyResponse j with
      | some vr => .ok vr.2
      | none => .error (.Request .decode)
    | none => .error (.Request .decode)
  else
    match resp.body with
    | some j =>
      match decodeErrorResponse j with
      | some er => .error (.Service (er.1 ++ ": " ++ er.2.getD ""))
      | none => .error .InvalidResponse
    | none => .error .InvalidResponse

/-- `BbServiceClient::verify_proof`, as a function of the transport
outcome. -/
def verify_proof (outcome : Except String HttpResponse) :
    Except BbServiceError Bool :=
  match outcome with
  | .error cause => .error (.Request (.transport cause))
  | .ok resp => verify_proof_response resp

/-- `BbServiceClient::health_check`: a transport failure propagates as
`Request`; otherwise the result is `status.is_success()`, the body never
inspected. -/
def health_check (outcome : Except String HttpResponse) :
    Except BbServiceError Bool :=
  match outcome with
  | .error cause => .error (.Request (.transport cause))
  | .ok resp => .ok (isSuccess resp.status)

/-- The error component of an operation's result, for comparing the error
branches of two operations with different success types. -/
def errorOf {α : Type} : Except BbServiceError α → Option BbServiceError
  | .error e => some e
  | .ok _ => none

/-- Outcome of `load_circuit_definition`: success, an error message, or a
panic (for modelling the `unwrap`). -/
inductive LoadResult where
  | ok (j : Json)
  | err (msg : String)
  | panic

/-- Whether a `LoadResult` is the panic outcome. -/
def LoadResult.isPanic : LoadResult → Bool
  | .panic => true
  | _ => false

/-- The validation tail of `load_circuit_definition`, from the parsed JSON
value: reject non-objects, then `unwrap` the object view (a `panic` if it is
`none`), then require both the `bytecode` and `abi` keys, and return the
value as-is. -/
def load_circuit_validate (circuit_json : Json) : LoadResult :=
  if !circuit_json.isObject then
    .err "Circuit JSON must be an object"
  else
    match circuit_json.asObject with
    | none => .panic
    | some obj =>
      if !containsKey obj "bytecode" || !containsKey obj "abi" then
        .err "Circuit JSON must contain 'bytecode' and 'abi' fields"
      else
        .ok circuit_json

/-- `load_circuit_definition`, with the filesystem read and the JSON parse
as oracles (`.error` carrying the underlying cause's message). -/
def load_circuit_definition (path : String)
    (fsRead : String → Except String String)
    (parse : String → Except String Json) : LoadResult :=
  match fsRead path with
  | .error e => .err ("Failed to read circuit file " ++ path ++ ": " ++ e)
  | .ok content =>
    match parse content with
    | .error e => .err ("Failed to parse circuit JSON: " ++ e)
    | .ok circuit_json => load_circuit_validate circuit_json

end BbService

namespace BbService

/-- Skipping one member whose key is neither `message` nor `proof` leaves the
`ProveResponse` member loop unchanged, wherever it sits in the list. -/
theorem decodeProveFields_skip (k : String) (v : Json)
    (hk1 : k ≠ "message") (hk2 : k ≠ "proof") :
    ∀ (l1 l2 : List (String × Json)) (m : Option String) (p : Option ProofData),
      decodeProveFields (l1 ++ (k, v) :: l2) m p = decodeProveFields (l1 ++ l2) m p
  | [], l2, m, p => by
    simp [decodeProveFields, hk1, hk2]
  | (a, b) :: l1, l2, m, p => by
    by_cases ha1 : a = "message"
    · subst ha1
      simp only [List.cons_append, decodeProveFields, if_pos rfl]
      cases m with
      | some _ => rfl
      | none =>
        cases decodeString b with
        | none => rfl
        | some s => exact decodeProveFields_skip k v hk1 hk2 l1 l2 (some s) p
    · by_cases ha2 : a = "proof"
      · subst ha2
        simp only [List.cons_append, decodeProveFields, if_neg ha1, if_pos rfl]
        cases p with
        | some _ => rfl
        | none =>
          cases decodeProofData b with
          | none => rfl
          | some pd => exact decodeProveFields_skip k v hk1 hk2 l1 l2 m (some pd)
      · simp only [List.cons_append, decodeProveFields, if_neg ha1, if_neg ha2]
        exact decodeProveFields_skip k v hk1 hk2 l1 l2 m p

/-- Skipping one member whose key is neither `message` nor `isValid` leaves
the `VerifyResponse` member loop unchanged. -/
theorem decodeVerifyFields_skip (k : String) (v : Json)
    (hk1 : k ≠ "message") (hk2 : k ≠ "isValid") :
    ∀ (l1 l2 : List (String × Json)) (m : Option String) (iv : Option Bool),
      decodeVerifyFields (l1 ++ (k, v) :: l2) m iv = decodeVerifyFields (l1 ++ l2) m iv
  | [], l2, m, iv => by
    simp [decodeVerifyFields, hk1, hk2]
  | (a, b) :: l1, l2, m, iv => by
    by_cases ha1 : a = "message"
    · subst ha1
      simp only [List.cons_append, decodeVerifyFields, if_pos rfl]
      cases m with
      | some _ => rfl
      | none =>
        cases decodeString b with
        | none => rfl
        | some s => exact decodeVerifyFields_skip k v hk1 hk2 l1 l2 (some s) iv
    · by_cases ha2 : a = "isValid"
      · subst ha2
        simp only [List.cons_append, decodeVerifyFields, if_neg ha1, if_pos rfl]
        cases iv with
        | some _ => rfl
        | none =>
          cases decodeBool b with
          | none => rfl
          | some bv => exact decodeVerifyFields_skip k v hk1 hk2 l1 l2 m (some bv)
      · simp only [List.cons_append, decodeVerifyFields, if_neg ha1, if_neg ha2]
        exact decodeVerifyFields_skip k v hk1 hk2 l1 l2 m iv

/-- Skipping one member whose key is neither `error` nor `details` leaves the
`ErrorResponse` member loop unchanged. -/
theorem decodeErrorFields_skip (k : String) (v : Json)
    (hk1 : k ≠ "error") (hk2 : k ≠ "details") :
    ∀ (l1 l2 : List (String × Json)) (e : Option String) (d : Option (Option String)),
      decodeErrorFields (l1 ++ (k, v) :: l2) e d = decodeErrorFields (l1 ++ l2) e d
  | [], l2, e, d => by
    simp [decodeErrorFields, hk1, hk2]
  | (a, b) :: l1, l2, e, d => by
    by_cases ha1 : a = "error"
    · subst ha1
      simp only [List.cons_append, decodeErrorFields, if_pos rfl]
      cases e with
      | some _ => rfl
      | none =>
        cases decodeString b with
        | none => rfl
        | some s => exact decodeErrorFields_skip k v hk1 hk2 l1 l2 (some s) d
    · by_cases ha2 : a = "details"
      · subst ha2
        simp only [List.cons_append, decodeErrorFields, if_neg ha1, if_pos rfl]
        cases d with
        | some _ => rfl
        | none =>
          cases decodeOptString b with
          | none => rfl
          | some o => exact decodeErrorFields_skip k v hk1 hk2 l1 l2 e (some o)
      · simp only [List.cons_append, decodeErrorFields, if_neg ha1, if_neg ha2]
        exact decodeErrorFields_skip k v hk1 hk2 l1 l2 e d

/-- `load_circuit_validate` never reaches the panic outcome. -/
theorem load_circuit_validate_isPanic_false (j : Json) :
    (load_circuit_validate j).isPanic = false := by
  cases j
  case obj ms =>
    by_cases h : (!containsKey ms "bytecode" || !containsKey ms "abi") = true <;>
      simp [load_circuit_validate, Json.isObject, Json.asObject, h, LoadResult.isPanic]
  all_goals rfl

end BbService

namespace BbService

/-- Claim C1: for both `generate_proof` and `verify_proof`, a response with a
non-success status whose body decodes as an `ErrorResponse` (required string
`error`, optional string `details`) fails with
`Service("{error}: {details}")`, `details` defaulting to the empty string
when absent. -/
theorem service_error_message
    (resp : HttpResponse) (j : Json) (e : String) (d : Option String)
    (hs : isSuccess resp.status = false)
    (hb : resp.body = some j)
    (hd : decodeErrorResponse j = some (e, d)) :
    generate_proof_response resp = .error (.Service (e ++ ": " ++ d.getD "")) ∧
    verify_proof_response resp = .error (.Service (e ++ ": " ++ d.getD "")) := by
  constructor <;> simp [generate_proof_response, verify_proof_response, hs, hb, hd]

/-- Witness for C1: HTTP 400 with
`{"error":"bad circuit","details":"missing gate"}` yields
`Service("bad circuit: missing gate")` from `generate_proof`. -/
theorem service_error_message_witness :
    generate_proof_response
      ⟨400, some (.obj [("error", .str "bad circuit"), ("details", .str "missing gate")])⟩ =
      .error (.Service "bad circuit: missing gate") :=
  (service_error_message
    ⟨400, some (.obj [("error", .str "bad circuit"), ("details", .str "missing gate")])⟩
    (.obj [("error", .str "bad circuit"), ("details", .str "missing gate")])
    "bad circuit" (some "missing gate") rfl rfl rfl).1

/-- Claim C2: on a 2xx status, `generate_proof` returns exactly the decoded
`ProveResponse`'s `proof` field (the `message` field is discarded); any
failure to decode the success body — a wrong shape or a body that is not
JSON — fails with a `Request`-class decode error. -/
theorem generate_proof_success_contract :
    (∀ (resp : HttpResponse) (j : Json) (m : String) (p : ProofData),
      isSuccess resp.status = true → resp.body = some j →
      decodeProveResponse j = some (m, p) →
      generate_proof_response resp = .ok p) ∧
    (∀ (resp : HttpResponse) (j : Json),
      isSuccess resp.status = true → resp.body = some j →
      decodeProveResponse j = none →
      generate_proof_response resp = .error (.Request .decode)) ∧
    (∀ resp : HttpResponse,
      isSuccess resp.status = true → resp.body = none →
      generate_proof_response resp = .error (.Request .decode)) := by
  refine ⟨fun resp j m p hs hb hd => ?_, fun resp j hs hb hd => ?_, fun resp hs hb => ?_⟩
  · simp [generate_proof_response, hs, hb, hd]
  · simp [generate_proof_response, hs, hb, hd]
  · simp [generate_proof_response, hs, hb]

/-- Witness for C2: HTTP 200 with
`{"message":"ok","proof":{"proof":[1,2,3],"publicInputs":[4,5,6]}}` returns
that proof data. -/
theorem generate_proof_success_contract_witness :
    generate_proof_response
      ⟨200, some (.obj [("message", .str "ok"),
        ("proof", .obj [("proof", .arr [.num 1, .num 2, .num 3]),
                        ("publicInputs", .arr [.num 4, .num 5, .num 6])])])⟩ =
      .ok ⟨[1, 2, 3], [4, 5, 6]⟩ :=
  generate_proof_success_contract.1
    ⟨200, some (.obj [("message", .str "ok"),
      ("proof", .obj [("proof", .arr [.num 1, .num 2, .num 3]),
                      ("publicInputs", .arr [.num 4, .num 5, .num 6])])])⟩
    (.obj [("message", .str "ok"),
      ("proof", .obj [("proof", .arr [.num 1, .num 2, .num 3]),
                      ("publicInputs", .arr [.num 4, .num 5, .num 6])])])
    "ok" ⟨[1, 2, 3], [4, 5, 6]⟩ rfl rfl rfl

/-- Claim C3: for both operations, a non-success status whose body does not
decode as an `ErrorResponse` — wrong shape or not JSON — fails with
`InvalidResponse`, not with a `Request` or `Service` error. -/
theorem invalid_error_body_contract :
    (∀ (resp : HttpResponse) (j : Json),
      isSuccess resp.status = false → resp.body = some j →
      decodeErrorResponse j = none →
      generate_proof_response resp = .error .InvalidResponse ∧
      verify_proof_response resp = .error .InvalidResponse) ∧
    (∀ resp : HttpResponse,
      isSuccess resp.status = false → resp.body = none →
      generate_proof_response resp = .error .InvalidResponse ∧
      verify_proof_response resp = .error .InvalidResponse) := by
  constructor
  · intro resp j hs hb hd
    constructor <;> simp [generate_proof_response, verify_proof_response, hs, hb, hd]
  · intro resp hs hb
    constructor <;> simp [generate_proof_response, verify_proof_response, hs, hb]

/-- Witness for C3: HTTP 500 with a malformed (non-object) body makes
`verify_proof` fail with `InvalidResponse`. -/
theorem invalid_error_body_contract_witness :
    verify_proof_response ⟨500, some (.str "oops")⟩ = .error .InvalidResponse :=
  (invalid_error_body_contract.1 ⟨500, some (.str "oops")⟩ (.str "oops") rfl rfl rfl).2

/-- Claim C4: `health_check` returns `Ok(true)` iff the status is in the 2xx
range, `Ok(false)` for every other received status, never inspects the body,
and fails with a `Request` error on transport failure. -/
theorem health_check_contract :
    (∀ (s : Nat) (b : Option Json),
      (health_check (.ok ⟨s, b⟩) = .ok true ↔ (200 ≤ s ∧ s < 300)) ∧
      (health_check (.ok ⟨s, b⟩) = .ok false ↔ ¬(200 ≤ s ∧ s < 300))) ∧
    (∀ (s : Nat) (b b' : Option Json),
      health_check (.ok ⟨s, b⟩) = health_check (.ok ⟨s, b'⟩)) ∧
    (∀ cause : String,
      health_check (.error cause) = .error (.Request (.transport cause))) := by
  refine ⟨fun s b => ⟨?_, ?_⟩, fun s b b' => rfl, fun cause => rfl⟩ <;>
    simp [health_check, isSuccess]

/-- Witness for C4: HTTP 200 yields `true`, HTTP 503 yields `false`, and a
refused connection yields a `Request` error. -/
theorem health_check_contract_witness :
    health_check (.ok ⟨200, none⟩) = .ok true ∧
    health_check (.ok ⟨503, none⟩) = .ok false ∧
    health_check (.error "connection refused") =
      .error (.Request (.transport "connection refused")) :=
  ⟨(health_check_contract.1 200 none).1.mpr (by decide),
   (health_check_contract.1 503 none).2.mpr (by decide),
   health_check_contract.2.2 "connection refused"⟩

/-- Claim C5: on a 2xx status whose body decodes as a `VerifyResponse`,
`verify_proof` returns exactly the `isValid` value; on every non-success
response it produces the same error as `generate_proof`, and a transport
failure propagates identically in both. -/
theorem verify_proof_contract :
    (∀ (resp : HttpResponse) (j : Json) (m : String) (v : Bool),
      isSuccess resp.status = true → resp.body = some j →
      decodeVerifyResponse j = some (m, v) →
      verify_proof_response resp = .ok v) ∧
    (∀ resp : HttpResponse,
      isSuccess resp.status = false →
      errorOf (verify_proof_response resp) = errorOf (generate_proof_response resp)) ∧
    (∀ cause : String,
      verify_proof (.error cause) = .error (.Request (.transport cause)) ∧
      generate_proof (.error cause) = .error (.Request (.transport cause))) := by
  refine ⟨fun resp j m v hs hb hd => ?_, fun resp hs => ?_, fun cause => ⟨rfl, rfl⟩⟩
  · simp [verify_proof_response, hs, hb, hd]
  · cases hb : resp.body with
    | none => simp [verify_proof_response, generate_proof_response, hs, hb, errorOf]
    | some j =>
      cases hd : decodeErrorResponse j <;>
        simp [verify_proof_response, generate_proof_response, hs, hb, hd, errorOf]

/-- Witness for C5: HTTP 200 with `{"message":"ok","isValid":true}` returns
`true`. -/
theorem verify_proof_contract_witness :
    verify_proof_response
      ⟨200, some (.obj [("message", .str "ok"), ("isValid", .bool true)])⟩ = .ok true :=
  verify_proof_contract.1
    ⟨200, some (.obj [("message", .str "ok"), ("isValid", .bool true)])⟩
    (.obj [("message", .str "ok"), ("isValid", .bool true)])
    "ok" true rfl rfl rfl

/-- Claim C6: the prove request body has exactly the top-level fields
`circuit` and `input`, the verify request body exactly `circuit` and
`proof`, and a serialized `ProofData` uses the wire names `proof` and
`publicInputs` (the in-memory `public_inputs` renamed). -/
theorem request_body_shapes :
    ∀ (circuit : Json) (input : List (String × Json)) (p : ProofData),
      (serializeProveRequest circuit input).objKeys = ["circuit", "input"] ∧
      (serializeVerifyRequest circuit p).objKeys = ["circuit", "proof"] ∧
      (serializeProofData p).objKeys = ["proof", "publicInputs"] :=
  fun _ _ _ => ⟨rfl, rfl, rfl⟩

/-- Claim C7: when the file reads and parses to a JSON object containing
both the `bytecode` and `abi` keys, `load_circuit_definition` returns the
parsed value unchanged, with no check on the two keys' contents. -/
theorem load_circuit_definition_roundtrip
    (path content : String)
    (fsRead : String → Except String String)
    (parse : String → Except String Json)
    (ms : List (String × Json))
    (hr : fsRead path = .ok content)
    (hp : parse content = .ok (.obj ms))
    (hb : containsKey ms "bytecode" = true)
    (ha : containsKey ms "abi" = true) :
    load_circuit_definition path fsRead parse = .ok (.obj ms) := by
  simp [load_circuit_definition, hr, hp, load_circuit_validate,
    Json.isObject, Json.asObject, hb, ha]

/-- Witness for C7: a file parsing to
`{"bytecode":"b","abi":null,"extra":[]}` loads back structurally
unchanged. -/
theorem load_circuit_definition_roundtrip_witness :
    load_circuit_definition "circuit.json"
      (fun _ => .ok "stub-contents")
      (fun _ => .ok (.obj [("bytecode", .str "b"), ("abi", .null), ("extra", .arr [])])) =
      .ok (.obj [("bytecode", .str "b"), ("abi", .null), ("extra", .arr [])]) :=
  load_circuit_definition_roundtrip "circuit.json" "stub-contents"
    (fun _ => .ok "stub-contents")
    (fun _ => .ok (.obj [("bytecode", .str "b"), ("abi", .null), ("extra", .arr [])]))
    [("bytecode", .str "b"), ("abi", .null), ("extra", .arr [])]
    rfl rfl rfl rfl

/-- Claim C8: a file parsing to a non-object JSON value fails with the
"must be an object" error, and one parsing to an object missing `bytecode`
or missing `abi` fails with the "must contain 'bytecode' and 'abi' fields"
error. -/
theorem load_circuit_shape_errors :
    (∀ (path content : String)
      (fsRead : String → Except String String)
      (parse : String → Except String Json) (j : Json),
      fsRead path = .ok content → parse content = .ok j →
      j.isObject = false →
      load_circuit_definition path fsRead parse =
        .err "Circuit JSON must be an object") ∧
    (∀ (path content : String)
      (fsRead : String → Except String String)
      (parse : String → Except String Json) (ms : List (String × Json)),
      fsRead path = .ok content → parse content = .ok (.obj ms) →
      (containsKey ms "bytecode" = false ∨ containsKey ms "abi" = false) →
      load_circuit_definition path fsRead parse =
        .err "Circuit JSON must contain 'bytecode' and 'abi' fields") := by
  constructor
  · intro path content fsRead parse j hr hp ho
    simp [load_circuit_definition, hr, hp, load_circuit_validate, ho]
  · intro path content fsRead parse ms hr hp hmiss
    rcases hmiss with hb | ha
    · simp [load_circuit_definition, hr, hp, load_circuit_validate,
        Json.isObject, Json.asObject, hb]
    · simp [load_circuit_definition, hr, hp, load_circuit_validate,
        Json.isObject, Json.asObject, ha]

/-- Witness for C8: a top-level array fails with the object error; an object
with only `bytecode` fails with the missing-fields error. -/
theorem load_circuit_shape_errors_witness :
    load_circuit_definition "a.json" (fun _ => .ok "stub")
      (fun _ => .ok (.arr [.num 1])) = .err "Circuit JSON must be an object" ∧
    load_circuit_definition "b.json" (fun _ => .ok "stub")
      (fun _ => .ok (.obj [("bytecode", .null)])) =
      .err "Circuit JSON must contain 'bytecode' and 'abi' fields" :=
  ⟨load_circuit_shape_errors.1 "a.json" "stub" (fun _ => .ok "stub")
    (fun _ => .ok (.arr [.num 1])) (.arr [.num 1]) rfl rfl rfl,
   load_circuit_shape_errors.2 "b.json" "stub" (fun _ => .ok "stub")
    (fun _ => .ok (.obj [("bytecode", .null)])) [("bytecode", .null)]
    rfl rfl (Or.inr rfl)⟩

/-- Claim C9: each response decoder ignores unknown fields: inserting a
member with a key unknown to the struct anywhere in the object leaves the
decoding result unchanged, for the prove-success, verify-success and error
shapes alike. -/
theorem unknown_fields_ignored :
    ∀ (l1 l2 : List (String × Json)) (k : String) (v : Json),
      (k ≠ "message" → k ≠ "proof" →
        decodeProveResponse (.obj (l1 ++ (k, v) :: l2)) =
          decodeProveResponse (.obj (l1 ++ l2))) ∧
      (k ≠ "message" → k ≠ "isValid" →
        decodeVerifyResponse (.obj (l1 ++ (k, v) :: l2)) =
          decodeVerifyResponse (.obj (l1 ++ l2))) ∧
      (k ≠ "error" → k ≠ "details" →
        decodeErrorResponse (.obj (l1 ++ (k, v) :: l2)) =
          decodeErrorResponse (.obj (l1 ++ l2))) :=
  fun l1 l2 k v =>
    ⟨fun h1 h2 => by
        simp only [decodeProveResponse, decodeProveFields_skip k v h1 h2],
     fun h1 h2 => by
        simp only [decodeVerifyResponse, decodeVerifyFields_skip k v h1 h2],
     fun h1 h2 => by
        simp only [decodeErrorResponse, decodeErrorFields_skip k v h1 h2]⟩

/-- Witness for C9: an extra `status` member does not change the decoding
of an error body. -/
theorem unknown_fields_ignored_witness :
    decodeErrorResponse
      (.obj [("status", .num 500), ("error", .str "boom")]) =
      decodeErrorResponse (.obj [("error", .str "boom")]) :=
  (unknown_fields_ignored [] [("error", .str "boom")] "status" (.num 500)).2.2
    (by decide) (by decide)

/-- Claim C10: the `unwrap` inside `load_circuit_definition` is unreachable
in its panicking branch: for every parsed value the validation — and the
whole loader, for every read and parse outcome — yields an `ok` or `err`
result and never the panic outcome. -/
theorem load_circuit_no_panic :
    (∀ j : Json, (load_circuit_validate j).isPanic = false) ∧
    (∀ (path : String)
      (fsRead : String → Except String String)
      (parse : String → Except String Json),
      (load_circuit_definition path fsRead parse).isPanic = false) := by
  refine ⟨load_circuit_validate_isPanic_false, fun path fsRead parse => ?_⟩
  cases hr : fsRead path with
  | error e => simp [load_circuit_definition, hr, LoadResult.isPanic]
  | ok content =>
    cases hp : parse content with
    | error e => simp [load_circuit_definition, hr, hp, LoadResult.isPanic]
    | ok j =>
      simp [load_circuit_definition, hr, hp, load_circuit_validate_isPanic_false j]

end BbService
